import Mathlib

/-!
Shallow embedding of the advent-calendar feed server (`main.go`).

Conventions of the embedding:
* Go `float64` prices and ratings are modelled as exact rationals (`ℚ`).
* Go `int` is modelled as `Int`.
* Go `time.Time` is modelled as `GoTime`: the absolute instant in
  nanoseconds since the Unix epoch together with the zone offset in
  seconds (Go keeps the parsed fixed zone and uses it when formatting).
* Wall-clock reads (`time.Now()`) are passed in as explicit parameters.
* The mutable `Cache` becomes a value; `Get`/`Set` take the current time.
-/

namespace AdventFeed

/-- Model of Go `time.Time`: absolute instant (nanoseconds since the Unix
epoch) plus the fixed zone offset in seconds recorded when parsing.
`time.Time.After` compares the absolute instant only. -/
structure GoTime where
  nanos : Int
  offset : Int
  deriving DecidableEq

/-- Days since 1970-01-01 of the proleptic Gregorian date y-m-d
(civil-from-days algorithm); valid for years 0..9999 as produced by the
RFC3339 parser.  Internally the year is shifted by one 400-year era so
that all intermediate arithmetic stays in `Nat`. -/
def daysFromCivil (y m d : Nat) : Int :=
  let ys := y + 400
  let yAdj := if m ≤ 2 then ys - 1 else ys
  let era := yAdj / 400
  let yoe := yAdj % 400
  let mp := if 2 < m then m - 3 else m + 9
  let doy := (153 * mp + 2) / 5 + d - 1
  let doe := yoe * 365 + yoe / 4 - yoe / 100 + doy
  ((era * 146097 + doe : Nat) : Int) - 719468 - 146097

/-- Inverse of `daysFromCivil`: the proleptic Gregorian (year, month, day)
of a day count relative to 1970-01-01.  Total on `Int`. -/
def civilFromDays (z0 : Int) : Int × Nat × Nat :=
  let zShift := z0 + 719468
  let era := Int.fdiv zShift 146097
  let doe := (Int.fmod zShift 146097).toNat
  let yoe := (doe - doe / 1460 + doe / 36524 - doe / 146096) / 365
  let doy := doe - (365 * yoe + yoe / 4 - yoe / 100)
  let mp := (5 * doy + 2) / 153
  let d := doy - (153 * mp + 2) / 5 + 1
  let m := if mp < 10 then mp + 3 else mp - 9
  (era * 400 + yoe + (if m ≤ 2 then 1 else 0), m, d)

/-- Go's zero `time.Time` (January 1, year 1, 00:00:00 UTC), the value
`time.Parse` failures collapse to in `parseValidFrom`. -/
def zeroTime : GoTime :=
  ⟨daysFromCivil 1 1 1 * 86400 * 1000000000, 0⟩

def digitVal (c : Char) : Nat := c.toNat - 48

def digit2 (a b : Char) : Nat := 10 * digitVal a + digitVal b

def digit4 (a b c d : Char) : Nat :=
  1000 * digitVal a + 100 * digitVal b + 10 * digitVal c + digitVal d

def natOfDigits (l : List Char) : Nat :=
  l.foldl (fun acc c => acc * 10 + digitVal c) 0

def isLeapYear (y : Nat) : Bool :=
  y % 4 == 0 && (y % 100 != 0 || y % 400 == 0)

/-- Day count of each month, as validated by Go's RFC3339 parser. -/
def daysInMonth (y m : Nat) : Nat :=
  if m == 2 then (if isLeapYear y then 29 else 28)
  else if m == 4 || m == 6 || m == 9 || m == 11 then 30
  else 31

/-- Optional fractional seconds after the seconds field: `.` or `,`
followed by at least one digit.  Returns the nanosecond value (first nine
digits, right-padded) and the unconsumed remainder, or the input unchanged
when no fraction is present (mirrors Go's `parseNanoseconds`). -/
def splitFrac (l : List Char) : Nat × List Char :=
  match l with
  | c :: c2 :: rest =>
    if (c == '.' || c == ',') && c2.isDigit then
      let ds := c2 :: rest.takeWhile Char.isDigit
      (natOfDigits (ds.take 9) * 10 ^ (9 - min 9 ds.length), rest.dropWhile Char.isDigit)
    else (0, l)
  | _ => (0, l)

/-- Zone suffix of an RFC3339 timestamp: `Z` (UTC) or `±hh:mm` with
`hh ≤ 23`, `mm ≤ 59`; returns the offset in seconds.  Must consume the
whole remainder. -/
def parseOffset : List Char → Option Int
  | ['Z'] => some 0
  | [s, h1, h2, ':', m1, m2] =>
    if (s == '+' || s == '-') && h1.isDigit && h2.isDigit && m1.isDigit && m2.isDigit then
      let hh := digit2 h1 h2
      let mm := digit2 m1 m2
      if hh ≤ 23 && mm ≤ 59 then
        let off : Int := hh * 3600 + mm * 60
        some (if s == '-' then -off else off)
      else none
    else none
  | _ => none

/-- Model of Go `time.Parse(time.RFC3339, s)`: strict
`yyyy-mm-ddThh:mm:ss[.fff...](Z|±hh:mm)` with month, day-of-month
(month/leap-aware), hour, minute, second and offset ranges validated;
`none` on any malformed input. -/
def parseRFC3339 (s : String) : Option GoTime :=
  match s.data with
  | y1 :: y2 :: y3 :: y4 :: '-' :: mo1 :: mo2 :: '-' :: d1 :: d2c :: 'T' ::
      h1 :: h2 :: ':' :: mi1 :: mi2 :: ':' :: s1 :: s2 :: rest =>
    if (y1.isDigit && y2.isDigit && y3.isDigit && y4.isDigit &&
        mo1.isDigit && mo2.isDigit && d1.isDigit && d2c.isDigit &&
        h1.isDigit && h2.isDigit && mi1.isDigit && mi2.isDigit &&
        s1.isDigit && s2.isDigit) then
      let year := digit4 y1 y2 y3 y4
      let month := digit2 mo1 mo2
      let day := digit2 d1 d2c
      let hour := digit2 h1 h2
      let minute := digit2 mi1 mi2
      let second := digit2 s1 s2
      if (1 ≤ month && month ≤ 12 && 1 ≤ day && day ≤ daysInMonth year month &&
          hour ≤ 23 && minute ≤ 59 && second ≤ 59) then
        let (nanos, rest2) := splitFrac rest
        match parseOffset rest2 with
        | some off =>
          let secs : Int := daysFromCivil year month day * 86400 +
            hour * 3600 + minute * 60 + second - off
          some ⟨secs * 1000000000 + nanos, off⟩
        | none => none
      else none
    else none
  | _ => none

/-- `parseValidFrom` (main.go:420): an unparseable string yields
Go's zero time. -/
def parseValidFrom (validFrom : String) : GoTime :=
  (parseRFC3339 validFrom).getD zeroTime

def padNat (w n : Nat) : String :=
  let s := toString n
  if s.length < w then String.mk (List.replicate (w - s.length) '0') ++ s else s

def padYear (y : Int) : String :=
  if y < 0 then "-" ++ padNat 4 y.natAbs else padNat 4 y.toNat

def offsetSuffix (off : Int) : String :=
  if off = 0 then "Z"
  else
    let mins := off.natAbs / 60
    (if off < 0 then "-" else "+") ++ padNat 2 (mins / 60) ++ ":" ++ padNat 2 (mins % 60)

/-- Model of `t.Format(time.RFC3339)`: renders the wall clock in the
time's own fixed zone; the layout carries no fractional seconds. -/
def formatRFC3339 (t : GoTime) : String :=
  let localSecs := Int.fdiv t.nanos 1000000000 + t.offset
  let days := Int.fdiv localSecs 86400
  let tod := (Int.fmod localSecs 86400).toNat
  match civilFromDays days with
  | (y, m, d) =>
    padYear y ++ "-" ++ padNat 2 m ++ "-" ++ padNat 2 d ++ "T" ++
      padNat 2 (tod / 3600) ++ ":" ++ padNat 2 (tod % 3600 / 60) ++ ":" ++
      padNat 2 (tod % 60) ++ offsetSuffix t.offset

/-! ### Data model (main.go:17-134) -/

/-- `StoreConfig` (main.go:18). -/
structure StoreConfig where
  Name : String
  APIURL : String
  BaseURL : String
  PortalID : String
  deriving DecidableEq

/-- The `galaxus` entry of the `stores` map (main.go:26). -/
def galaxus : StoreConfig :=
  { Name := "Galaxus"
    APIURL := "https://www.galaxus.ch/api/graphql/get-adventcalendar"
    BaseURL := "https://www.galaxus.ch"
    PortalID := "22" }

/-- The `digitec` entry of the `stores` map (main.go:32). -/
def digitec : StoreConfig :=
  { Name := "Digitec"
    APIURL := "https://www.digitec.ch/api/graphql/get-adventcalendar"
    BaseURL := "https://www.digitec.ch"
    PortalID := "25" }

/-- `Header` (main.go:59). -/
structure Header where
  Title : String
  Description : String
  ImageURL : String
  deriving DecidableEq

/-- Element of `Product.Product.Images` (main.go:75). -/
structure ProductImage where
  URL : String
  deriving DecidableEq

/-- The inner `product` record of `Product` (main.go:66). -/
structure ProductInfo where
  ID : String
  ProductID : Int
  Name : String
  NameProperties : String
  ProductTypeName : String
  BrandName : String
  AverageRating : ℚ
  TotalRatings : Int
  Images : List ProductImage
  deriving DecidableEq

/-- `Offer.Price` (main.go:80). -/
structure Price where
  AmountInclusive : ℚ
  Currency : String
  deriving DecidableEq

/-- `Offer.SalesInformation` (main.go:84). -/
structure SalesInformation where
  NumberOfItems : Int
  NumberOfItemsSold : Int
  ValidFrom : String
  deriving DecidableEq

/-- The price record inside `Offer.InsteadOfPrice` (main.go:90). -/
structure InsteadOfPriceAmount where
  AmountInclusive : ℚ
  deriving DecidableEq

/-- `Offer.InsteadOfPrice` (main.go:89); the Go field is a nil-able
pointer, modelled as `Option` at the use site. -/
structure InsteadOfPrice where
  Price : InsteadOfPriceAmount
  deriving DecidableEq

/-- The `offer` record of `Product` (main.go:79). -/
structure Offer where
  Price : Price
  SalesInformation : SalesInformation
  InsteadOfPrice : Option InsteadOfPrice
  deriving DecidableEq

/-- `Product` (main.go:65). -/
structure Product where
  Product : ProductInfo
  Offer : Offer
  deriving DecidableEq

/-- `AdventCalendar` (main.go:53). -/
structure AdventCalendar where
  CurrentDate : String
  Header : Header
  Products : List Product
  deriving DecidableEq

/-- `AtomLink` (main.go:116); unset XML attributes are empty strings. -/
structure AtomLink where
  Href : String
  Rel : String
  Type' : String
  deriving DecidableEq

/-- `AtomContent` (main.go:131). -/
structure AtomContent where
  Type' : String
  Content : String
  deriving DecidableEq

/-- `AtomAuthor` (main.go:111). -/
structure AtomAuthor where
  Name : String
  URI : String
  deriving DecidableEq

/-- `AtomEntry` (main.go:122). -/
structure AtomEntry where
  Title : String
  Link : AtomLink
  ID : String
  Updated : String
  Summary : AtomContent
  Content : AtomContent
  deriving DecidableEq

/-- `AtomFeed` (main.go:98); the `XMLName` plumbing field is omitted. -/
structure AtomFeed where
  XMLNS : String
  Title : String
  Subtitle : String
  Link : AtomLink
  Icon : String
  Updated : String
  ID : String
  Author : Option AtomAuthor
  Entries : List AtomEntry
  deriving DecidableEq

/-! ### Formatting helpers for `fmt.Sprintf` verbs -/

/-- Go `%d` on an `int`. -/
def fmtInt (n : Int) : String := toString n

/-- Round a rational to the nearest integer, ties to even — the rounding
Go's `strconv` applies when printing a float with fixed precision. -/
def roundNearestEven (q : ℚ) : Int :=
  let f := ⌊q⌋
  if q - f < 1 / 2 then f
  else if 1 / 2 < q - f then f + 1
  else if f % 2 = 0 then f else f + 1

/-- Go `%.pf` on a float, modelled over the exact rational value: fixed
`prec` digits after the decimal point, rounded to nearest.  (A negative
value that rounds to zero loses its sign here; no claim inspects that
corner.) -/
def fmtFixed (prec : Nat) (q : ℚ) : String :=
  let scaled := roundNearestEven (q * (10 ^ prec : Nat))
  let sign := if scaled < 0 then "-" else ""
  let m := scaled.natAbs
  sign ++ toString (m / 10 ^ prec) ++ "." ++ padNat prec (m % 10 ^ prec)

/-! ### Discount and sorting (main.go:413-436) -/

/-- `calculateDiscount` (main.go:413).  Go's `int(x)` truncates toward
zero; on the else branch the value is strictly positive, where truncation
and `⌊·⌋` agree. -/
def calculateDiscount (current original : ℚ) : Int :=
  if original ≤ 0 ∨ current ≥ original then 0
  else ⌊(original - current) / original * 100⌋

/-- The sort key of a product: the instant of its parsed sales
valid-from timestamp. -/
def validFromKey (p : Product) : Int :=
  (parseValidFrom p.Offer.SalesInformation.ValidFrom).nanos

/-- The order established by `sort.Slice` with
`less(i, j) = ti.After(tj)` (main.go:432): an element may precede another
exactly when its key is not smaller, i.e. descending by valid-from. -/
def validFromGE (p q : Product) : Prop := validFromKey q ≤ validFromKey p

instance : DecidableRel validFromGE :=
  fun p q => inferInstanceAs (Decidable (validFromKey q ≤ validFromKey p))

instance : IsTotal Product validFromGE :=
  ⟨fun p q => by unfold validFromGE; exact le_total (validFromKey q) (validFromKey p)⟩

instance : IsTrans Product validFromGE :=
  ⟨fun a b c hab hbc => by unfold validFromGE at *; exact le_trans hbc hab⟩

/-- The product list as ordered by the builder (main.go:430-436): a copy
of the input sorted descending by parsed valid-from.  `sort.Slice` is not
stable; insertion sort realizes the same comparator and is what Go's
algorithm performs on small slices. -/
def sortProducts (l : List Product) : List Product :=
  List.insertionSort validFromGE l

/-! ### Entry construction (main.go:438-520), one definition per local -/

def productURL (cfg : StoreConfig) (p : Product) : String :=
  cfg.BaseURL ++ "/product/" ++ fmtInt p.Product.ProductID

def stableID (p : Product) : String :=
  "urn:advent:" ++ fmtInt p.Product.ProductID

/-- The `discount` local (main.go:444-447): zero when there is no
instead-of price. -/
def discountOf (p : Product) : Int :=
  match p.Offer.InsteadOfPrice with
  | some iop => calculateDiscount p.Offer.Price.AmountInclusive iop.Price.AmountInclusive
  | none => 0

/-- The `title` local (main.go:450-456). -/
def titleOf (p : Product) : String :=
  let t := p.Product.BrandName ++ ": " ++ p.Product.Name
  let t := if p.Product.NameProperties ≠ "" then t ++ " - " ++ p.Product.NameProperties else t
  if 0 < discountOf p then "[" ++ fmtInt (discountOf p) ++ "% off] " ++ t else t

/-- The `updatedStr` local (main.go:459-460). -/
def updatedStrOf (p : Product) : String :=
  formatRFC3339 (parseValidFrom p.Offer.SalesInformation.ValidFrom)

/-- The `imageHTML` local (main.go:463-466). -/
def imageHTMLOf (p : Product) : String :=
  match p.Product.Images with
  | img :: _ =>
    "<img src=\"" ++ img.URL ++ "\" alt=\"" ++ p.Product.Name ++
      "\" style=\"max-width:400px;\"/><br/><br/>"
  | [] => ""

/-- The `remaining` local (main.go:469); may go negative, not clamped. -/
def remainingOf (p : Product) : Int :=
  p.Offer.SalesInformation.NumberOfItems - p.Offer.SalesInformation.NumberOfItemsSold

/-- The `stockInfo` local (main.go:470). -/
def stockInfoOf (p : Product) : String :=
  fmtInt (remainingOf p) ++ "/" ++ fmtInt p.Offer.SalesInformation.NumberOfItems ++ " remaining"

/-- The `priceInfo` local (main.go:473-478); note the source renders the
current price's currency in both positions. -/
def priceInfoOf (p : Product) : String :=
  match p.Offer.InsteadOfPrice with
  | none => fmtFixed 2 p.Offer.Price.AmountInclusive ++ " " ++ p.Offer.Price.Currency
  | some iop =>
    "<strong>" ++ fmtFixed 2 p.Offer.Price.AmountInclusive ++ " " ++ p.Offer.Price.Currency ++
      "</strong> <s>" ++ fmtFixed 2 iop.Price.AmountInclusive ++ " " ++
      p.Offer.Price.Currency ++ "</s>"

/-- The `ratingInfo` local (main.go:481-484). -/
def ratingInfoOf (p : Product) : String :=
  if 0 < p.Product.TotalRatings then
    fmtFixed 1 p.Product.AverageRating ++ "/5 (" ++ fmtInt p.Product.TotalRatings ++ " reviews)"
  else ""

/-- The `content` local (main.go:487-501). -/
def contentOf (cfg : StoreConfig) (p : Product) : String :=
  let base := imageHTMLOf p ++ "<p><strong>Brand:</strong> " ++ p.Product.BrandName ++
    "</p>\n<p><strong>Type:</strong> " ++ p.Product.ProductTypeName ++
    "</p>\n<p><strong>Price:</strong> " ++ priceInfoOf p ++
    "</p>\n<p><strong>Stock:</strong> " ++ stockInfoOf p ++ "</p>"
  let base := if ratingInfoOf p ≠ "" then
    base ++ "\n<p><strong>Rating:</strong> " ++ ratingInfoOf p ++ "</p>" else base
  base ++ "<p><a href=\"" ++ productURL cfg p ++ "\">View on " ++ cfg.Name ++ "</a></p>"

/-- The entry appended for one product (main.go:503-519). -/
def buildEntry (cfg : StoreConfig) (p : Product) : AtomEntry :=
  { Title := titleOf p
    Link := { Href := productURL cfg p, Rel := "alternate", Type' := "" }
    ID := stableID p
    Updated := updatedStrOf p
    Summary :=
      { Type' := "text"
        Content := p.Product.BrandName ++ " - " ++ p.Product.ProductTypeName ++ " - " ++
          priceInfoOf p }
    Content := { Type' := "html", Content := contentOf cfg p } }

/-- The icon rewrite (main.go:522-526): prepend `https:` only when the
URL is longer than two characters and starts with `//`. -/
def fixIconURL (u : String) : String :=
  if 2 < u.length ∧ u.take 2 = "//" then "https:" ++ u else u

/-- `buildAtomFeed` (main.go:428-542).  `now` stands for the
`time.Now()` read used for the document's `Updated` field. -/
def buildAtomFeed (cfg : StoreConfig) (calendar : AdventCalendar) (now : GoTime) : AtomFeed :=
  let products := sortProducts calendar.Products
  let entries := products.map (buildEntry cfg)
  let iconURL := fixIconURL calendar.Header.ImageURL
  { XMLNS := "http://www.w3.org/2005/Atom"
    Title := calendar.Header.Title ++ " - " ++ cfg.Name
    Subtitle := calendar.Header.Description
    Link := { Href := cfg.BaseURL ++ "/advent-calendar", Rel := "alternate", Type' := "" }
    Icon := iconURL
    Updated := formatRFC3339 now
    ID := "urn:advent-calendar:" ++ cfg.Name
    Author := some { Name := cfg.Name, URI := cfg.BaseURL }
    Entries := entries }

/-- State-passing embedding of `buildAtomFeed`'s effect on its caller's
data (main.go:430-436): the function copies `calendar.Products` into the
local slice `products` and `sort.Slice` permutes only that copy; the
calendar itself is never assigned to, so the procedure returns it
unchanged alongside the feed. -/
def buildAtomFeedProc (cfg : StoreConfig) (calendar : AdventCalendar) (now : GoTime) :
    AtomFeed × AdventCalendar :=
  let products := calendar.Products
  let products := sortProducts products
  let entries := products.map (buildEntry cfg)
  let iconURL := fixIconURL calendar.Header.ImageURL
  ({ XMLNS := "http://www.w3.org/2005/Atom"
     Title := calendar.Header.Title ++ " - " ++ cfg.Name
     Subtitle := calendar.Header.Description
     Link := { Href := cfg.BaseURL ++ "/advent-calendar", Rel := "alternate", Type' := "" }
     Icon := iconURL
     Updated := formatRFC3339 now
     ID := "urn:advent-calendar:" ++ cfg.Name
     Author := some { Name := cfg.Name, URI := cfg.BaseURL }
     Entries := entries }, calendar)

/-! ### Cache (main.go:136-158) and service (main.go:544-559) -/

/-- `Cache` (main.go:137); times and durations in nanoseconds.  The
mutex only serializes access and has no sequential meaning. -/
structure Cache where
  data : Option AtomFeed
  fetchedAt : Int
  duration : Int
  deriving DecidableEq

/-- `Cache.Get` (main.go:144): the nil check precedes the freshness
check `time.Since(c.fetchedAt) < c.duration`; `now` stands for the
`time.Now()` read inside `time.Since`. -/
def Cache.Get (c : Cache) (now : Int) : Option AtomFeed :=
  match c.data with
  | some d => if now - c.fetchedAt < c.duration then some d else none
  | none => none

/-- `Cache.Get` with its (absent) effect on the cache made explicit: the
method takes only a read lock and performs no writes. -/
def Cache.GetProc (c : Cache) (now : Int) : Option AtomFeed × Cache :=
  (c.Get now, c)

/-- `Cache.Set` (main.go:153): unconditionally replaces the stored feed
and resets the fetch timestamp to `now`. -/
def Cache.Set (c : Cache) (feed : AtomFeed) (now : Int) : Cache :=
  { c with data := some feed, fetchedAt := now }

/-- The cache as constructed in `main` (main.go:599):
`&Cache{duration: config.CacheDuration}` leaves the data slot nil and
the fetch timestamp at the zero time. -/
def newCache (d : Int) : Cache :=
  { data := none, fetchedAt := zeroTime.nanos, duration := d }

/-- `getFeed` (main.go:544).  The upstream fetch is I/O, so its outcome
is a parameter `fetchResult`; `tGet` and `tSet` are the `time.Now()`
reads of the cache check and the cache fill, `bNow` the one of the
builder. -/
def getFeed (cfg : StoreConfig) (c : Cache) (tGet : Int)
    (fetchResult : Except String AdventCalendar) (bNow : GoTime) (tSet : Int) :
    Except String AtomFeed × Cache :=
  match c.Get tGet with
  | some cached => (Except.ok cached, c)
  | none =>
    match fetchResult with
    | Except.error e => (Except.error e, c)
    | Except.ok calendar =>
      let feed := buildAtomFeed cfg calendar bNow
      (Except.ok feed, c.Set feed tSet)

/-! ### Concrete fixtures used by witnesses and counterexamples -/

/-- The one-product scenario of the spec: brand Acme, name Widget,
price 8.00 CHF, instead-of 10.00, itemsTotal 50, itemsSold 20, a fixed
parseable RFC3339 valid-from. -/
def prodC7 : Product :=
  { Product :=
      { ID := "x1", ProductID := 123, Name := "Widget", NameProperties := "",
        ProductTypeName := "Gadget", BrandName := "Acme", AverageRating := 4.5,
        TotalRatings := 7, Images := [{ URL := "https://img.example/1.png" }] }
    Offer :=
      { Price := { AmountInclusive := 8, Currency := "CHF" }
        SalesInformation :=
          { NumberOfItems := 50, NumberOfItemsSold := 20,
            ValidFrom := "2024-12-01T09:00:00Z" }
        InsteadOfPrice := some { Price := { AmountInclusive := 10 } } } }

/-- `prodC7` after a price/stock/rating change: new price, no more
instead-of price, more items sold, different rating. -/
def prodC7b : Product :=
  { Product :=
      { ID := "x1", ProductID := 123, Name := "Widget", NameProperties := "",
        ProductTypeName := "Gadget", BrandName := "Acme", AverageRating := 3.5,
        TotalRatings := 9, Images := [{ URL := "https://img.example/1.png" }] }
    Offer :=
      { Price := { AmountInclusive := 7, Currency := "CHF" }
        SalesInformation :=
          { NumberOfItems := 50, NumberOfItemsSold := 25,
            ValidFrom := "2024-12-01T09:00:00Z" }
        InsteadOfPrice := none } }

def calC7 : AdventCalendar :=
  { CurrentDate := "2024-12-01"
    Header := { Title := "Advent", Description := "Deals", ImageURL := "//e.com/i.png" }
    Products := [prodC7] }

def calC7b : AdventCalendar :=
  { CurrentDate := "2024-12-01"
    Header := { Title := "Advent", Description := "Deals", ImageURL := "//e.com/i.png" }
    Products := [prodC7b] }

def calEmpty : AdventCalendar :=
  { CurrentDate := "", Header := { Title := "", Description := "", ImageURL := "" }
    Products := [] }

/-- A product with the later valid-from timestamp. -/
def pLateW : Product :=
  { prodC7 with Offer := { prodC7.Offer with SalesInformation :=
      { prodC7.Offer.SalesInformation with ValidFrom := "2024-12-02T09:00:00Z" } } }

/-- A product with the earlier valid-from timestamp. -/
def pEarlyW : Product := prodC7

def calW : AdventCalendar :=
  { calEmpty with Products := [pLateW, pEarlyW] }

/-- Two products sharing one valid-from timestamp but with different ids. -/
def pTieA : Product := prodC7

def pTieB : Product :=
  { prodC7 with Product := { prodC7.Product with ProductID := 124, Name := "Sprocket" } }

def calTie : AdventCalendar :=
  { calEmpty with Products := [pTieA, pTieB] }

/-- A minimal feed document used to populate cache fixtures. -/
def feedW : AtomFeed :=
  { XMLNS := "http://www.w3.org/2005/Atom", Title := "t", Subtitle := ""
    Link := { Href := "", Rel := "", Type' := "" }, Icon := "", Updated := ""
    ID := "f", Author := none, Entries := [] }

/-- A cache holding `feedW`, fetched at time 0 with a TTL of 10. -/
def cacheW : Cache := { data := some feedW, fetchedAt := 0, duration := 10 }

/-! ### Relations used by the stable-id claim -/

/-- Two product snapshots that differ only in price, stock, or rating
fields: every other upstream field coincides. -/
def SamePSR (p q : Product) : Prop :=
  p.Product.ID = q.Product.ID ∧
  p.Product.ProductID = q.Product.ProductID ∧
  p.Product.Name = q.Product.Name ∧
  p.Product.NameProperties = q.Product.NameProperties ∧
  p.Product.ProductTypeName = q.Product.ProductTypeName ∧
  p.Product.BrandName = q.Product.BrandName ∧
  p.Product.Images = q.Product.Images ∧
  p.Offer.Price.Currency = q.Offer.Price.Currency ∧
  p.Offer.SalesInformation.ValidFrom = q.Offer.SalesInformation.ValidFrom

/-! ### Helper lemmas -/

theorem SamePSR.key_eq {p q : Product} (h : SamePSR p q) :
    validFromKey p = validFromKey q := by
  obtain ⟨-, -, -, -, -, -, -, -, hv⟩ := h
  unfold validFromKey
  rw [hv]

theorem SamePSR.sid_eq {p q : Product} (h : SamePSR p q) : stableID p = stableID q := by
  obtain ⟨-, hpid, -⟩ := h
  unfold stableID
  rw [hpid]

theorem validFromGE_congr {a b x y : Product} (hab : SamePSR a b) (hxy : SamePSR x y) :
    validFromGE a x ↔ validFromGE b y := by
  unfold validFromGE
  rw [hab.key_eq, hxy.key_eq]

theorem orderedInsert_samePSR {a b : Product} (hab : SamePSR a b) :
    ∀ {l₁ l₂ : List Product}, List.Forall₂ SamePSR l₁ l₂ →
      List.Forall₂ SamePSR (List.orderedInsert validFromGE a l₁)
        (List.orderedInsert validFromGE b l₂)
  | _, _, List.Forall₂.nil => List.Forall₂.cons hab List.Forall₂.nil
  | _, _, List.Forall₂.cons hxy hl => by
    rename_i x y l₁ l₂
    by_cases hc : validFromGE a x
    · simp only [List.orderedInsert]
      rw [if_pos hc, if_pos ((validFromGE_congr hab hxy).mp hc)]
      exact List.Forall₂.cons hab (List.Forall₂.cons hxy hl)
    · simp only [List.orderedInsert]
      rw [if_neg hc, if_neg (fun hc' => hc ((validFromGE_congr hab hxy).mpr hc'))]
      exact List.Forall₂.cons hxy (orderedInsert_samePSR hab hl)

theorem insertionSort_samePSR :
    ∀ {l₁ l₂ : List Product}, List.Forall₂ SamePSR l₁ l₂ →
      List.Forall₂ SamePSR (sortProducts l₁) (sortProducts l₂)
  | _, _, List.Forall₂.nil => List.Forall₂.nil
  | _, _, List.Forall₂.cons hab hl => by
    simp only [sortProducts, List.insertionSort]
    exact orderedInsert_samePSR hab (insertionSort_samePSR hl)

theorem forall₂_stableID_map :
    ∀ {l₁ l₂ : List Product}, List.Forall₂ SamePSR l₁ l₂ →
      l₁.map stableID = l₂.map stableID
  | _, _, List.Forall₂.nil => rfl
  | _, _, List.Forall₂.cons hab hl => by
    simp only [List.map]
    rw [hab.sid_eq, forall₂_stableID_map hl]

theorem formatRFC3339_zeroTime : formatRFC3339 zeroTime = "0001-01-01T00:00:00Z" := by
  decide

/-! ### Claims -/

set_option maxRecDepth 10000

/-- Claim C1, counterexample: at current price 0 and original price 10
the code computes `floor((10 - 0) / 10 * 100) = 100`, violating the
claimed unconditional bound `discount < 100`. -/
theorem discount_bound_counterexample :
    calculateDiscount 0 10 = 100 ∧ ¬ calculateDiscount 0 10 < 100 := by
  have h : calculateDiscount 0 10 = 100 := by with_unfolding_all rfl
  exact ⟨h, by rw [h]; decide⟩

/-- Claim C1 (amended): the discount is 0 when there is no instead-of
price; with original price O and current price C it is 0 if O ≤ 0 or
C ≥ O, and otherwise equals floor(((O - C) / O) * 100); the discount is
always nonnegative, and it is below 100 whenever the current price is
positive.  (The original unconditional bound `discount < 100` fails for
a current price ≤ 0, which the code does not rule out.) -/
theorem discount_spec_amended :
    (∀ p : Product, p.Offer.InsteadOfPrice = none → discountOf p = 0) ∧
    (∀ current original : ℚ,
      (original ≤ 0 ∨ current ≥ original → calculateDiscount current original = 0) ∧
      (0 < original → current < original →
        calculateDiscount current original = ⌊(original - current) / original * 100⌋) ∧
      0 ≤ calculateDiscount current original ∧
      (0 < current → calculateDiscount current original < 100)) := by
  refine ⟨fun p hp => ?_, fun C O => ⟨fun h => ?_, fun hO hC => ?_, ?_, fun hC => ?_⟩⟩
  · simp [discountOf, hp]
  · simp [calculateDiscount, h]
  · rw [calculateDiscount, if_neg]
    push_neg
    exact ⟨hO, hC⟩
  · rw [calculateDiscount]
    split
    · exact le_refl 0
    · next h =>
      push_neg at h
      obtain ⟨hO, hC⟩ := h
      have : (0 : ℚ) ≤ (O - C) / O * 100 :=
        mul_nonneg (div_nonneg (by linarith) hO.le) (by norm_num)
      exact Int.floor_nonneg.mpr this
  · rw [calculateDiscount]
    split
    · norm_num
    · next h =>
      push_neg at h
      obtain ⟨hO, hCO⟩ := h
      have h1 : (O - C) / O < 1 := (div_lt_one hO).mpr (by linarith)
      have h2 : (O - C) / O * 100 < ((100 : ℤ) : ℚ) := by push_cast; linarith
      exact Int.floor_lt.mpr h2

/-- Claim C1, witness for the amended theorem: `prodC7b` has no
instead-of price and zero discount; at prices C = 8, O = 10 the discount
follows the floor formula and is below 100. -/
theorem discount_spec_amended_witness :
    discountOf prodC7b = 0 ∧
    calculateDiscount 8 10 = ⌊((10 : ℚ) - 8) / 10 * 100⌋ ∧
    calculateDiscount 8 10 < 100 :=
  ⟨discount_spec_amended.1 prodC7b rfl,
    (discount_spec_amended.2 8 10).2.1 (by norm_num) (by norm_num),
    (discount_spec_amended.2 8 10).2.2.2 (by norm_num)⟩

/-- Claim C2, counterexample: `calTie` holds two products with the same
valid-from timestamp.  The built feed lists `pTieA`'s entry before
`pTieB`'s distinct entry, so `pTieB`'s entry does not appear before
`pTieA`'s even though `validFrom(pTieB) ≥ validFrom(pTieA)` — the
claimed iff fails on equal timestamps. -/
theorem sort_iff_counterexample :
    (buildAtomFeed galaxus calTie zeroTime).Entries =
      [buildEntry galaxus pTieA, buildEntry galaxus pTieB] ∧
    (buildEntry galaxus pTieA).ID ≠ (buildEntry galaxus pTieB).ID ∧
    validFromKey pTieA ≤ validFromKey pTieB := by
  refine ⟨?_, by decide, by decide⟩
  with_unfolding_all rfl

/-- Claim C2 (amended): the output entries are the products sorted by
parsed valid-from mapped through the entry builder; the order is
descending by the parsed valid-from instant — an earlier entry's key is
≥ a later entry's key, and a strictly greater key forces the earlier
position; an unparseable valid-from parses to the zero timestamp.  The
original biconditional fails only for distinct entries with equal
timestamps, whose relative order carries no guarantee. -/
theorem sort_descending_amended :
    ∀ (cfg : StoreConfig) (cal : AdventCalendar) (now : GoTime),
      (buildAtomFeed cfg cal now).Entries =
        (sortProducts cal.Products).map (buildEntry cfg) ∧
      (∀ i j : Fin (sortProducts cal.Products).length, i < j →
        validFromKey ((sortProducts cal.Products).get j) ≤
          validFromKey ((sortProducts cal.Products).get i)) ∧
      (∀ i j : Fin (sortProducts cal.Products).length,
        validFromKey ((sortProducts cal.Products).get j) <
          validFromKey ((sortProducts cal.Products).get i) → i < j) ∧
      (∀ s : String, parseRFC3339 s = none → parseValidFrom s = zeroTime) := by
  intro cfg cal now
  have hs : List.Sorted validFromGE (sortProducts cal.Products) :=
    List.sorted_insertionSort validFromGE cal.Products
  have hpair := List.pairwise_iff_get.mp hs
  refine ⟨rfl, fun i j hij => hpair i j hij, fun i j h => ?_, fun s hn => ?_⟩
  · rcases lt_trichotomy i j with h1 | h1 | h1
    · exact h1
    · subst h1
      exact absurd h (lt_irrefl _)
    · exact absurd (hpair j i h1) (not_le.mpr h)
  · simp [parseValidFrom, hn]

/-- Claim C2, witness for the amended theorem: an unparseable string
collapses to the zero timestamp, and in the two-product calendar `calW`
the entry at position 0 carries a key ≥ the entry at position 1. -/
theorem sort_descending_amended_witness :
    parseValidFrom "not-a-date" = zeroTime ∧
    validFromKey ((sortProducts calW.Products).get ⟨1, by decide⟩) ≤
      validFromKey ((sortProducts calW.Products).get ⟨0, by decide⟩) :=
  ⟨(sort_descending_amended galaxus calEmpty zeroTime).2.2.2 "not-a-date" rfl,
    (sort_descending_amended galaxus calW zeroTime).2.1 ⟨0, by decide⟩ ⟨1, by decide⟩
      (by decide)⟩

/-- Claim C3: for a cache holding a document, a `Get` at
`fetchedAt + ttl - ε` (0 < ε < ttl) returns it, a `Get` at
`fetchedAt + ttl + ε` misses, and `Get` never modifies the cache state. -/
theorem cache_ttl_window :
    ∀ (c : Cache) (d : AtomFeed) (eps : Int),
      c.data = some d → 0 < eps → eps < c.duration →
      c.Get (c.fetchedAt + c.duration - eps) = some d ∧
      c.Get (c.fetchedAt + c.duration + eps) = none ∧
      ∀ t : Int, c.GetProc t = (c.Get t, c) := by
  intro c d eps hd h0 _hlt
  refine ⟨?_, ?_, fun t => rfl⟩
  · simp only [Cache.Get, hd]
    rw [if_pos (by omega)]
  · simp only [Cache.Get, hd]
    rw [if_neg (by omega)]

/-- Claim C3, witness: the cache `cacheW` (fetched at 0, TTL 10) hits at
time 7 and misses at time 13, with ε = 3. -/
theorem cache_ttl_window_witness :
    cacheW.Get 7 = some feedW ∧ cacheW.Get 13 = none ∧
    ∀ t : Int, cacheW.GetProc t = (cacheW.Get t, cacheW) := by
  have h := cache_ttl_window cacheW feedW 3 rfl (by decide) (by decide)
  exact ⟨h.1, h.2.1, h.2.2⟩

/-- Claim C4: on a cache hit `getFeed` returns the cached document, the
cache is unchanged, and the result does not depend on the fetch outcome
(no upstream fetch influences it); on a miss with a failed fetch it
returns exactly that error and leaves the cache unchanged; on a miss
with a successful fetch it returns the built feed and stores it. -/
theorem getFeed_orchestration :
    ∀ (cfg : StoreConfig) (c : Cache) (tGet tSet : Int)
      (fr : Except String AdventCalendar) (bNow : GoTime),
      (∀ f, c.Get tGet = some f →
        getFeed cfg c tGet fr bNow tSet = (Except.ok f, c) ∧
        ∀ fr', getFeed cfg c tGet fr bNow tSet = getFeed cfg c tGet fr' bNow tSet) ∧
      (∀ e, c.Get tGet = none → fr = Except.error e →
        getFeed cfg c tGet fr bNow tSet = (Except.error e, c)) ∧
      (∀ cal, c.Get tGet = none → fr = Except.ok cal →
        getFeed cfg c tGet fr bNow tSet =
          (Except.ok (buildAtomFeed cfg cal bNow),
            c.Set (buildAtomFeed cfg cal bNow) tSet)) := by
  intro cfg c tGet tSet fr bNow
  refine ⟨fun f hf => ⟨?_, fun fr' => ?_⟩, fun e hm he => ?_, fun cal hm hk => ?_⟩
  · simp [getFeed, hf]
  · simp [getFeed, hf]
  · simp [getFeed, hm, he]
  · simp [getFeed, hm, hk]

/-- Claim C4, witness: a hit on `cacheW` returns `feedW` and ignores a
failing fetch; a miss on a fresh cache propagates the error unchanged; a
miss with a successful fetch of the empty calendar stores and returns
the built feed. -/
theorem getFeed_orchestration_witness :
    getFeed galaxus cacheW 5 (Except.error "boom") zeroTime 5 = (Except.ok feedW, cacheW) ∧
    getFeed galaxus (newCache 10) 5 (Except.error "boom") zeroTime 5 =
      (Except.error "boom", newCache 10) ∧
    getFeed galaxus (newCache 10) 5 (Except.ok calEmpty) zeroTime 5 =
      (Except.ok (buildAtomFeed galaxus calEmpty zeroTime),
        (newCache 10).Set (buildAtomFeed galaxus calEmpty zeroTime) 5) :=
  ⟨((getFeed_orchestration galaxus cacheW 5 5 (Except.error "boom") zeroTime).1 feedW
      (by decide)).1,
    (getFeed_orchestration galaxus (newCache 10) 5 5 (Except.error "boom") zeroTime).2.1
      "boom" rfl rfl,
    (getFeed_orchestration galaxus (newCache 10) 5 5 (Except.ok calEmpty) zeroTime).2.2
      calEmpty rfl rfl⟩

/-- Claim C5: the entry id is exactly `urn:advent:` followed by the
numeric product id, and two snapshots whose products differ only in
price, stock, or rating fields build feeds with identical entry-id
sequences. -/
theorem stable_id :
    (∀ (cfg : StoreConfig) (p : Product),
      (buildEntry cfg p).ID = "urn:advent:" ++ fmtInt p.Product.ProductID) ∧
    (∀ (cfg : StoreConfig) (cal₁ cal₂ : AdventCalendar) (now₁ now₂ : GoTime),
      List.Forall₂ SamePSR cal₁.Products cal₂.Products →
      (buildAtomFeed cfg cal₁ now₁).Entries.map AtomEntry.ID =
        (buildAtomFeed cfg cal₂ now₂).Entries.map AtomEntry.ID) := by
  refine ⟨fun cfg p => rfl, fun cfg c1 c2 n1 n2 h => ?_⟩
  show ((sortProducts c1.Products).map (buildEntry cfg)).map AtomEntry.ID =
    ((sortProducts c2.Products).map (buildEntry cfg)).map AtomEntry.ID
  rw [List.map_map, List.map_map]
  show (sortProducts c1.Products).map stableID = (sortProducts c2.Products).map stableID
  exact forall₂_stableID_map (insertionSort_samePSR h)

/-- Claim C5, witness: `calC7b` differs from `calC7` only in price,
stock and rating fields; both feeds carry the same entry-id sequence. -/
theorem stable_id_witness :
    (buildAtomFeed galaxus calC7 zeroTime).Entries.map AtomEntry.ID =
      (buildAtomFeed galaxus calC7b zeroTime).Entries.map AtomEntry.ID :=
  stable_id.2 galaxus calC7 calC7b zeroTime zeroTime
    (List.Forall₂.cons ⟨rfl, rfl, rfl, rfl, rfl, rfl, rfl, rfl, rfl⟩ List.Forall₂.nil)

/-- Claim C6, counterexample: the two-character URL `//` begins with the
protocol-relative prefix, yet the code's `len > 2` guard leaves it
unchanged instead of rewriting it to `https://`. -/
theorem icon_rewrite_counterexample :
    String.take "//" 2 = "//" ∧ fixIconURL "//" = "//" ∧ fixIconURL "//" ≠ "https://" := by
  refine ⟨by decide, by decide, by decide⟩

/-- Claim C6 (amended): a header image URL beginning with `//` is
rewritten to begin with `https://` provided it is longer than two
characters; every other URL — including the bare two-character string
`//` — passes through unchanged; the feed icon is exactly this rewrite
of the header image URL. -/
theorem icon_rewrite_amended :
    (∀ u : String, 2 < u.length → u.take 2 = "//" → fixIconURL u = "https:" ++ u) ∧
    (∀ u : String, ¬ (2 < u.length ∧ u.take 2 = "//") → fixIconURL u = u) ∧
    (∀ (cfg : StoreConfig) (cal : AdventCalendar) (now : GoTime),
      (buildAtomFeed cfg cal now).Icon = fixIconURL cal.Header.ImageURL) := by
  refine ⟨fun u h1 h2 => ?_, fun u h => ?_, fun cfg cal now => rfl⟩
  · rw [fixIconURL, if_pos ⟨h1, h2⟩]
  · rw [fixIconURL, if_neg h]

/-- Claim C6, witness: the protocol-relative example is rewritten to
`https://example.com/x.png`; an absolute URL passes through unchanged. -/
theorem icon_rewrite_amended_witness :
    fixIconURL "//example.com/x.png" = "https://example.com/x.png" ∧
    fixIconURL "https://already.com/y.png" = "https://already.com/y.png" :=
  ⟨icon_rewrite_amended.1 "//example.com/x.png" (by decide) (by decide),
    icon_rewrite_amended.2.1 "https://already.com/y.png" (by decide)⟩

/-- Claim C7: for the one-product Acme/Widget calendar (price 8.00 CHF,
instead-of 10.00, itemsTotal 50, itemsSold 20, fixed parseable
valid-from), the built entry's title starts with
`[20% off] Acme: Widget`, its stock line is `30/50 remaining`, and its
id is `urn:advent:` followed by the numeric product id 123. -/
theorem end_to_end_scenario :
    (buildAtomFeed galaxus calC7 zeroTime).Entries = [buildEntry galaxus prodC7] ∧
    (buildEntry galaxus prodC7).Title.startsWith "[20% off] Acme: Widget" = true ∧
    stockInfoOf prodC7 = "30/50 remaining" ∧
    (buildEntry galaxus prodC7).ID = "urn:advent:123" := by
  refine ⟨?_, ?_, by decide, by decide⟩
  · with_unfolding_all rfl
  · with_unfolding_all rfl

/-- Claim C8: the builder is total — every calendar yields a feed with
one entry per product and the empty calendar yields an empty entries
sequence — and malformed inputs degrade instead of failing: an
unparseable valid-from collapses to the zero timestamp (rendering as the
all-zero RFC3339 string) and a missing instead-of price yields zero
discount. -/
theorem build_total_degrade :
    (∀ (cfg : StoreConfig) (cal : AdventCalendar) (now : GoTime),
      (buildAtomFeed cfg cal now).Entries.length = cal.Products.length) ∧
    (∀ (cfg : StoreConfig) (cal : AdventCalendar) (now : GoTime),
      cal.Products = [] → (buildAtomFeed cfg cal now).Entries = []) ∧
    (∀ s : String, parseRFC3339 s = none → parseValidFrom s = zeroTime) ∧
    (∀ p : Product, parseRFC3339 p.Offer.SalesInformation.ValidFrom = none →
      updatedStrOf p = "0001-01-01T00:00:00Z") ∧
    (∀ p : Product, p.Offer.InsteadOfPrice = none → discountOf p = 0) := by
  refine ⟨fun cfg cal now => ?_, fun cfg cal now h => ?_, fun s hn => ?_,
    fun p hn => ?_, fun p hp => ?_⟩
  · show ((sortProducts cal.Products).map (buildEntry cfg)).length = cal.Products.length
    rw [List.length_map]
    exact (List.perm_insertionSort validFromGE cal.Products).length_eq
  · show ((sortProducts cal.Products).map (buildEntry cfg)) = []
    rw [h]
    rfl
  · simp [parseValidFrom, hn]
  · unfold updatedStrOf
    rw [show parseValidFrom p.Offer.SalesInformation.ValidFrom = zeroTime by
      simp [parseValidFrom, hn]]
    exact formatRFC3339_zeroTime
  · simp [discountOf, hp]

/-- Claim C8, witness: the empty calendar builds to an empty entries
sequence; an unparseable valid-from string collapses to the zero
timestamp; a product without instead-of price has zero discount. -/
theorem build_total_degrade_witness :
    (buildAtomFeed galaxus calEmpty zeroTime).Entries = [] ∧
    parseValidFrom "soon" = zeroTime ∧
    discountOf prodC7b = 0 :=
  ⟨build_total_degrade.2.1 galaxus calEmpty zeroTime rfl,
    build_total_degrade.2.2.1 "soon" rfl,
    build_total_degrade.2.2.2.2 prodC7b rfl⟩

/-- Claim C9: the builder never mutates its input: in the state-passing
embedding (where the Go code's copy-then-sort is explicit) the calendar
comes back unchanged with its product sequence intact, and the feed
agrees with the pure builder. -/
theorem build_no_mutation :
    ∀ (cfg : StoreConfig) (cal : AdventCalendar) (now : GoTime),
      (buildAtomFeedProc cfg cal now).2 = cal ∧
      (buildAtomFeedProc cfg cal now).2.Products = cal.Products ∧
      (buildAtomFeedProc cfg cal now).1 = buildAtomFeed cfg cal now :=
  fun _cfg _cal _now => ⟨rfl, rfl, rfl⟩

/-- Claim C10: a freshly constructed cache, on which `Set` was never
called, misses at every time and for every configured TTL: its data
slot is empty and the nil check precedes the freshness check, so the
freshness comparison is never reached. -/
theorem fresh_cache_miss :
    ∀ (d now : Int), (newCache d).Get now = none :=
  fun _d _now => rfl

end AdventFeed
